import Mathlib

/-!
Shallow embedding of `src/Simulation.py` (lunar satellite constellation
simulation).  The computational core consists of two pure functions:

* `calculate_satellites` (lines 12-17): a coverage-based estimate of the
  number of satellites, computed from the module constant `moon_radius`,
  the altitude and the per-satellite field of view.  The `inclination` and
  `moon_diameter` parameters are accepted but never used in the body.
* `satellite_positions` (lines 77-88): the 3D positions of the satellites,
  evenly spaced on an inclined circular orbit at a given phase offset.

Python floats are idealised as real numbers.  Python float division raises
`ZeroDivisionError` when the divisor is zero; this is modelled with
`Except`.  Module-level constants that a function reads (here
`moon_radius` and, for `satellite_positions`, also `altitude`) are passed
as explicit leading arguments.
-/

/-- Runtime errors of the Python arithmetic relevant here: float division
by a zero divisor raises `ZeroDivisionError`. -/
inductive PyError where
  | zeroDivision
  deriving DecidableEq

/-- `np.deg2rad(x)`: convert degrees to radians. -/
noncomputable def np_deg2rad (x : ℝ) : ℝ := x * Real.pi / 180

/-- `np.linspace(start, stop, num, endpoint=False)`: `num` evenly spaced
samples starting at `start`, excluding `stop`; the step is
`(stop - start) / num`.  For `num = 0` numpy returns the empty array
without raising. -/
noncomputable def np_linspace_no_endpoint (start stop : ℝ) (num : ℕ) : List ℝ :=
  (List.range num).map (fun (i : ℕ) => start + (stop - start) * (i : ℝ) / (num : ℝ))

/-- `calculate_satellites(altitude, inclination, moon_diameter, satellite_fov)`
from `src/Simulation.py` lines 12-17, with the module constant
`moon_radius` passed explicitly as the first argument.  The body computes
`int(np.ceil(total_surface_area / coverage_area))`; the division of the
two Python floats raises `ZeroDivisionError` when `coverage_area` is zero,
modelled as the `Except.error` branch.  `inclination` and `moon_diameter`
are parameters of the Python function that its body never uses. -/
noncomputable def calculate_satellites
    (moon_radius altitude inclination moon_diameter satellite_fov : ℝ) :
    Except PyError ℤ :=
  let total_surface_area := 4 * Real.pi * moon_radius ^ 2
  let r_orbit := moon_radius + altitude
  let coverage_area := satellite_fov / 360 * Real.pi * r_orbit ^ 2
  if coverage_area = 0 then Except.error PyError.zeroDivision
  else Except.ok ⌈total_surface_area / coverage_area⌉

/-- `satellite_positions(inclination, satellites_needed, phase_offset)` from
`src/Simulation.py` lines 77-88, with the module constants `moon_radius`
and `altitude` passed explicitly as the two leading arguments.  Each angle
produced by `np.linspace(0, 2*np.pi, satellites_needed, endpoint=False)`
is shifted by `phase_offset` and mapped to a point of the inclined
circular orbit, with the fixed vertical scene offset `500` added to `z`. -/
noncomputable def satellite_positions
    (moon_radius altitude inclination : ℝ) (satellites_needed : ℕ)
    (phase_offset : ℝ) : List (ℝ × ℝ × ℝ) :=
  let r_orbit := moon_radius + altitude
  let theta := np_deg2rad inclination
  let phi_positions := np_linspace_no_endpoint 0 (2 * Real.pi) satellites_needed
  phi_positions.map (fun phi =>
    let phi_new := phi + phase_offset
    (r_orbit * Real.cos phi_new,
     r_orbit * Real.sin phi_new * Real.cos theta,
     r_orbit * Real.sin phi_new * Real.sin theta + 500))

/-- The underlying orbital angle of satellite `i` out of `n` at phase
offset `off`: the `i`-th linspace sample shifted by the offset. -/
noncomputable def sat_angle (satellites_needed : ℕ) (phase_offset : ℝ) (i : ℕ) : ℝ :=
  2 * Real.pi * i / satellites_needed + phase_offset

lemma satellite_positions_eq (R alt inc : ℝ) (n : ℕ) (off : ℝ) :
    satellite_positions R alt inc n off =
      (List.range n).map (fun i =>
        ((R + alt) * Real.cos (sat_angle n off i),
         (R + alt) * Real.sin (sat_angle n off i) * Real.cos (np_deg2rad inc),
         (R + alt) * Real.sin (sat_angle n off i) * Real.sin (np_deg2rad inc) + 500)) := by
  simp only [satellite_positions, np_linspace_no_endpoint, List.map_map]
  refine List.map_congr_left (fun i _ => ?_)
  have h : 0 + (2 * Real.pi - 0) * (i : ℝ) / (n : ℝ) + off = sat_angle n off i := by
    unfold sat_angle; ring
  simp only [Function.comp_apply]
  rw [h]

lemma satellite_positions_length (R alt inc : ℝ) (n : ℕ) (off : ℝ) :
    (satellite_positions R alt inc n off).length = n := by
  rw [satellite_positions_eq]
  simp

lemma satellite_positions_get (R alt inc : ℝ) (n : ℕ) (off : ℝ) (i : ℕ) (hi : i < n) :
    (satellite_positions R alt inc n off).get
        ⟨i, by rw [satellite_positions_length]; exact hi⟩ =
      ((R + alt) * Real.cos (sat_angle n off i),
       (R + alt) * Real.sin (sat_angle n off i) * Real.cos (np_deg2rad inc),
       (R + alt) * Real.sin (sat_angle n off i) * Real.sin (np_deg2rad inc) + 500) := by
  simp [satellite_positions_eq, List.get_eq_getElem]

lemma coverage_area_ne_zero (R alt fov : ℝ) (hr : R + alt ≠ 0) (hf : fov ≠ 0) :
    fov / 360 * Real.pi * (R + alt) ^ 2 ≠ 0 := by
  have h360 : (360 : ℝ) ≠ 0 := by norm_num
  exact mul_ne_zero (mul_ne_zero (div_ne_zero hf h360) Real.pi_ne_zero)
    (pow_ne_zero 2 hr)

lemma calculate_satellites_ok_eq (R alt inc d fov : ℝ) (hr : R + alt ≠ 0)
    (hf : fov ≠ 0) :
    calculate_satellites R alt inc d fov =
      Except.ok ⌈4 * Real.pi * R ^ 2 / (fov / 360 * Real.pi * (R + alt) ^ 2)⌉ := by
  simp only [calculate_satellites]
  rw [if_neg (coverage_area_ne_zero R alt fov hr hf)]

lemma scenario_ratio_pos :
    4 * Real.pi * (1737.4 : ℝ) ^ 2 /
        (90 / 360 * Real.pi * ((1737.4 : ℝ) + 2000) ^ 2) =
      16 * (1737.4 : ℝ) ^ 2 / 3737.4 ^ 2 := by
  have hb : (1737.4 : ℝ) + 2000 = 3737.4 := by norm_num
  rw [hb]
  rw [div_eq_div_iff (by positivity) (by positivity)]
  ring

lemma scenario_ratio_neg :
    4 * Real.pi * (1737.4 : ℝ) ^ 2 /
        ((-90) / 360 * Real.pi * ((1737.4 : ℝ) + 2000) ^ 2) =
      -(16 * (1737.4 : ℝ) ^ 2 / 3737.4 ^ 2) := by
  have hb : (1737.4 : ℝ) + 2000 = 3737.4 := by norm_num
  have hd : (-90 : ℝ) / 360 * Real.pi * (3737.4 : ℝ) ^ 2 ≠ 0 := by
    have := Real.pi_ne_zero
    intro h
    rcases mul_eq_zero.mp h with h1 | h2
    · rcases mul_eq_zero.mp h1 with h3 | h4
      · norm_num at h3
      · exact this h4
    · norm_num at h2
  rw [hb, div_eq_iff hd]
  ring

lemma scenario_bounds :
    (3 : ℝ) ≤ 16 * (1737.4 : ℝ) ^ 2 / 3737.4 ^ 2 ∧
      16 * (1737.4 : ℝ) ^ 2 / 3737.4 ^ 2 < 4 := by
  constructor
  · rw [le_div_iff (by norm_num)]
    norm_num
  · rw [div_lt_iff (by norm_num)]
    norm_num

lemma scenario_ceil_four : ⌈16 * (1737.4 : ℝ) ^ 2 / 3737.4 ^ 2⌉ = (4 : ℤ) := by
  obtain ⟨h1, h2⟩ := scenario_bounds
  rw [Int.ceil_eq_iff]
  constructor
  · push_cast
    linarith
  · push_cast
    linarith

lemma scenario_ceil_neg_three :
    ⌈-(16 * (1737.4 : ℝ) ^ 2 / 3737.4 ^ 2)⌉ = (-3 : ℤ) := by
  obtain ⟨h1, h2⟩ := scenario_bounds
  rw [Int.ceil_eq_iff]
  constructor
  · push_cast
    linarith
  · push_cast
    linarith

/-- C1: for every positive bodyRadius, positive altitude and
fieldOfViewDegrees in (0, 360], `calculate_satellites` returns exactly
`ceil((4·π·bodyRadius²) / ((fov/360)·π·(bodyRadius+altitude)²))` cast to an
integer, for any values of the unused inclination and moon_diameter
arguments. -/
theorem calculate_satellites_formula (R alt inc d fov : ℝ) (hR : 0 < R)
    (halt : 0 < alt) (hf : 0 < fov) (hf360 : fov ≤ 360) :
    calculate_satellites R alt inc d fov =
      Except.ok ⌈4 * Real.pi * R ^ 2 / (fov / 360 * Real.pi * (R + alt) ^ 2)⌉ :=
  calculate_satellites_ok_eq R alt inc d fov (add_pos hR halt).ne'
    (ne_of_gt hf)

/-- Witness for C1 at bodyRadius = 1, altitude = 1, fov = 90: the formula
value is 4·π·1 / ((1/4)·π·4) = 4, so the function returns 4. -/
theorem calculate_satellites_formula_witness :
    calculate_satellites 1 1 0 0 90 = Except.ok 4 := by
  rw [calculate_satellites_formula 1 1 0 0 90 (by norm_num) (by norm_num)
    (by norm_num) (by norm_num)]
  have h : 4 * Real.pi * (1 : ℝ) ^ 2 /
      (90 / 360 * Real.pi * ((1 : ℝ) + 1) ^ 2) = ((4 : ℤ) : ℝ) := by
    push_cast
    rw [div_eq_iff (by positivity)]
    ring
  rw [h, Int.ceil_intCast]

/-- C9: the returned satellite count does not depend on the inclination or
moon_diameter arguments at all — any two calls to `calculate_satellites`
with the same moon_radius, altitude and fieldOfViewDegrees but arbitrary
inclination and moon_diameter values return identical results. -/
theorem calculate_satellites_ignores_unused_args
    (R alt inc1 inc2 d1 d2 fov : ℝ) :
    calculate_satellites R alt inc1 d1 fov =
      calculate_satellites R alt inc2 d2 fov := rfl

/-- C10: `satellite_positions` returns a list of exactly
`satellites_needed` position triples; in particular for zero satellites it
returns the empty list without raising any error. -/
theorem satellite_positions_count_exact (R alt inc off : ℝ) (n : ℕ) :
    (satellite_positions R alt inc n off).length = n ∧
      satellite_positions R alt inc 0 off = [] := by
  refine ⟨satellite_positions_length R alt inc n off, ?_⟩
  rw [satellite_positions_eq]
  simp

/-- C3 counterexample: at bodyRadius = 1737.4, altitude = 2000,
fieldOfViewDegrees = 90 (inclination 45, moon_diameter 3474.8) the
returned literal integer is 4, which is not 9 — the value is nowhere near
the "approximately 9" the claim asserts (the real ratio is about 3.458). -/
theorem scenario_count_is_four_not_nine :
    calculate_satellites 1737.4 2000 45 3474.8 90 = Except.ok 4 ∧
      (4 : ℤ) ≠ 9 := by
  refine ⟨?_, by decide⟩
  rw [calculate_satellites_ok_eq 1737.4 2000 45 3474.8 90 (by norm_num)
    (by norm_num), scenario_ratio_pos, scenario_ceil_four]

/-- C3 amended: `calculate_satellites` at bodyRadius = 1737.4,
altitude = 2000, fieldOfViewDegrees = 90 returns the literal integer equal
to `ceil(4·π·1737.4² / ((90/360)·π·(1737.4+2000)²))`, and that literal
integer is 4 (the ratio is ≈ 3.458, not ≈ 9). -/
theorem scenario_count_formula_value :
    calculate_satellites 1737.4 2000 45 3474.8 90 =
      Except.ok ⌈4 * Real.pi * (1737.4 : ℝ) ^ 2 /
        (90 / 360 * Real.pi * ((1737.4 : ℝ) + 2000) ^ 2)⌉ ∧
      ⌈4 * Real.pi * (1737.4 : ℝ) ^ 2 /
        (90 / 360 * Real.pi * ((1737.4 : ℝ) + 2000) ^ 2)⌉ = (4 : ℤ) := by
  constructor
  · exact calculate_satellites_ok_eq 1737.4 2000 45 3474.8 90 (by norm_num)
      (by norm_num)
  · rw [scenario_ratio_pos, scenario_ceil_four]

/-- C4 counterexample: calling `satellite_positions` with
`satellites_needed = 0` does not fail — it returns the empty list
(numpy's `linspace` with `num = 0` yields an empty array, so the loop
body never runs and no division is evaluated). -/
theorem satellite_positions_zero_returns_empty_cex :
    satellite_positions 1737.4 2000 45 0 0 = [] := by
  rw [satellite_positions_eq]
  simp

/-- C4 amended: calling `satellite_positions` with `satellites_needed = 0`
raises no InvalidParameter (or any other) error condition; it returns the
empty position list, for every moon_radius, altitude, inclination and
phase offset. -/
theorem satellite_positions_zero_returns_empty (R alt inc off : ℝ) :
    satellite_positions R alt inc 0 off = [] := by
  rw [satellite_positions_eq]
  simp

/-- C5 counterexample: `calculate_satellites` with the strictly negative
field of view -90 does not fail — it returns the integer -3 (the coverage
area is a nonzero negative number, so the division succeeds and the
ceiling of the negative ratio ≈ -3.458 is returned). -/
theorem calculate_satellites_negative_fov_cex :
    calculate_satellites 1737.4 2000 45 3474.8 (-90) = Except.ok (-3) := by
  rw [calculate_satellites_ok_eq 1737.4 2000 45 3474.8 (-90) (by norm_num)
    (by norm_num), scenario_ratio_neg, scenario_ceil_neg_three]

/-- C5 amended: with `fieldOfViewDegrees = 0` the computation fails with a
division-by-zero error (the InvalidParameter condition of the spec), but
with a strictly negative field of view it does not fail: it returns an
integer result. -/
theorem calculate_satellites_nonpositive_fov (R alt inc d fov : ℝ)
    (hr : R + alt ≠ 0) (hf : fov < 0) :
    calculate_satellites R alt inc d 0 = Except.error PyError.zeroDivision ∧
      ∃ k : ℤ, calculate_satellites R alt inc d fov = Except.ok k := by
  constructor
  · simp [calculate_satellites]
  · exact ⟨_, calculate_satellites_ok_eq R alt inc d fov hr (ne_of_lt hf)⟩

/-- Witness for the amended C5 at the scenario parameters with fov = -90. -/
theorem calculate_satellites_nonpositive_fov_witness :
    calculate_satellites 1737.4 2000 45 3474.8 0 =
        Except.error PyError.zeroDivision ∧
      ∃ k : ℤ, calculate_satellites 1737.4 2000 45 3474.8 (-90) =
        Except.ok k :=
  calculate_satellites_nonpositive_fov 1737.4 2000 45 3474.8 (-90)
    (by norm_num) (by norm_num)

/-- C2: for every inclination, satellite count n ≥ 1, index i < n and
phase offset, satellite i is returned at
(r·cos φ, r·sin φ·cos θ, r·sin φ·sin θ + 500) with r = moon_radius +
altitude, θ = inclination·π/180 and φ = 2π·i/n + offset; in particular at
offset 0 satellite 0 sits exactly at (r, 0, 500). -/
theorem satellite_positions_formula (R alt inc off : ℝ) (n i : ℕ)
    (hn : 1 ≤ n) (hi : i < n) :
    (satellite_positions R alt inc n off).get
        ⟨i, by rw [satellite_positions_length]; exact hi⟩ =
      ((R + alt) * Real.cos (2 * Real.pi * i / n + off),
       (R + alt) * Real.sin (2 * Real.pi * i / n + off) *
         Real.cos (inc * Real.pi / 180),
       (R + alt) * Real.sin (2 * Real.pi * i / n + off) *
         Real.sin (inc * Real.pi / 180) + 500) ∧
    (satellite_positions R alt inc n 0).get
        ⟨0, by rw [satellite_positions_length]; exact hn⟩ =
      (R + alt, 0, 500) := by
  constructor
  · exact satellite_positions_get R alt inc n off i hi
  · rw [satellite_positions_get R alt inc n 0 0 hn]
    have h0 : sat_angle n 0 0 = 0 := by
      unfold sat_angle
      simp
    rw [h0]
    simp

/-- Witness for C2 at moon_radius = 1, altitude = 1, inclination 0, one
satellite, phase offset 0: the single satellite sits at (2, 0, 500). -/
theorem satellite_positions_formula_witness :
    (satellite_positions 1 1 0 1 0).get
        ⟨0, by rw [satellite_positions_length]; norm_num⟩ = (2, 0, 500) := by
  have h := (satellite_positions_formula 1 1 0 0 1 0 (le_refl 1)
    Nat.zero_lt_one).2
  norm_num at h
  exact h

/-- C6: for positive bodyRadius and altitude and fields of view in
(0, 360] with fov1 ≤ fov2, `calculate_satellites` succeeds on both, each
count is at least 1, and the count at the larger field of view is at most
the count at the smaller one. -/
theorem calculate_satellites_ge_one_antitone (R alt inc d fov1 fov2 : ℝ)
    (hR : 0 < R) (halt : 0 < alt) (h1 : 0 < fov1) (h1b : fov1 ≤ 360)
    (h2 : 0 < fov2) (h2b : fov2 ≤ 360) (h12 : fov1 ≤ fov2) :
    ∃ k1 k2 : ℤ,
      calculate_satellites R alt inc d fov1 = Except.ok k1 ∧
      calculate_satellites R alt inc d fov2 = Except.ok k2 ∧
      1 ≤ k1 ∧ 1 ≤ k2 ∧ k2 ≤ k1 := by
  have hr : (0 : ℝ) < R + alt := add_pos hR halt
  have hd1 : (0 : ℝ) < fov1 / 360 * Real.pi * (R + alt) ^ 2 :=
    mul_pos (mul_pos (div_pos h1 (by norm_num)) Real.pi_pos) (pow_pos hr 2)
  have hd2 : (0 : ℝ) < fov2 / 360 * Real.pi * (R + alt) ^ 2 :=
    mul_pos (mul_pos (div_pos h2 (by norm_num)) Real.pi_pos) (pow_pos hr 2)
  have hnum : (0 : ℝ) < 4 * Real.pi * R ^ 2 :=
    mul_pos (mul_pos (by norm_num) Real.pi_pos) (pow_pos hR 2)
  have hx1 := div_pos hnum hd1
  have hx2 := div_pos hnum hd2
  have hden : fov1 / 360 * Real.pi * (R + alt) ^ 2 ≤
      fov2 / 360 * Real.pi * (R + alt) ^ 2 :=
    mul_le_mul_of_nonneg_right
      (mul_le_mul_of_nonneg_right (by linarith) Real.pi_pos.le)
      (pow_pos hr 2).le
  have hle : 4 * Real.pi * R ^ 2 / (fov2 / 360 * Real.pi * (R + alt) ^ 2) ≤
      4 * Real.pi * R ^ 2 / (fov1 / 360 * Real.pi * (R + alt) ^ 2) :=
    div_le_div_of_nonneg_left hnum.le hd1 hden
  refine ⟨_, _,
    calculate_satellites_ok_eq R alt inc d fov1 hr.ne' (ne_of_gt h1),
    calculate_satellites_ok_eq R alt inc d fov2 hr.ne' (ne_of_gt h2),
    ?_, ?_, Int.ceil_mono hle⟩
  · have := Int.ceil_pos.mpr hx1
    omega
  · have := Int.ceil_pos.mpr hx2
    omega

/-- Witness for C6 at bodyRadius = 1, altitude = 1, fov1 = 90, fov2 = 180. -/
theorem calculate_satellites_ge_one_antitone_witness :
    ∃ k1 k2 : ℤ,
      calculate_satellites 1 1 0 0 90 = Except.ok k1 ∧
      calculate_satellites 1 1 0 0 180 = Except.ok k2 ∧
      1 ≤ k1 ∧ 1 ≤ k2 ∧ k2 ≤ k1 :=
  calculate_satellites_ge_one_antitone 1 1 0 0 90 180 (by norm_num)
    (by norm_num) (by norm_num) (by norm_num) (by norm_num) (by norm_num)
    (by norm_num)

/-- C8: rotating the phase offset by 2π returns every satellite to exactly
the same position, for every inclination, satellite count and offset. -/
theorem satellite_positions_periodic (R alt inc off : ℝ) (n : ℕ) :
    satellite_positions R alt inc n (off + 2 * Real.pi) =
      satellite_positions R alt inc n off := by
  rw [satellite_positions_eq, satellite_positions_eq]
  refine List.map_congr_left (fun i _ => ?_)
  have h : sat_angle n (off + 2 * Real.pi) i = sat_angle n off i + 2 * Real.pi := by
    unfold sat_angle
    ring
  rw [h, Real.cos_add_two_pi, Real.sin_add_two_pi]

/-- C7: rigid rotating ring.  For every inclination, n ≥ 1 satellites and
any phase offset: every returned position is the point of the inclined
orbit at the underlying angle `sat_angle n off i`; consecutive underlying
angles are exactly 2π/n apart; every position lies at Euclidean distance
moon_radius + altitude from the orbit centre (0, 0, 500); and the angular
separation of any two satellites is the same at any two phase offsets. -/
theorem satellite_positions_rigid_ring (R alt inc off : ℝ) (n : ℕ)
    (hn : 1 ≤ n) (hr : 0 ≤ R + alt) :
    (∀ i : ℕ, ∀ hi : i < n,
      (satellite_positions R alt inc n off).get
          ⟨i, by rw [satellite_positions_length]; exact hi⟩ =
        ((R + alt) * Real.cos (sat_angle n off i),
         (R + alt) * Real.sin (sat_angle n off i) * Real.cos (np_deg2rad inc),
         (R + alt) * Real.sin (sat_angle n off i) * Real.sin (np_deg2rad inc)
           + 500)) ∧
    (∀ i : ℕ, sat_angle n off (i + 1) - sat_angle n off i = 2 * Real.pi / n) ∧
    (∀ i : ℕ, ∀ hi : i < n, ∀ p : ℝ × ℝ × ℝ,
      p = (satellite_positions R alt inc n off).get
          ⟨i, by rw [satellite_positions_length]; exact hi⟩ →
      Real.sqrt (p.1 ^ 2 + p.2.1 ^ 2 + (p.2.2 - 500) ^ 2) = R + alt) ∧
    (∀ i j : ℕ, ∀ off1 off2 : ℝ,
      sat_angle n off1 i - sat_angle n off1 j =
        sat_angle n off2 i - sat_angle n off2 j) := by
  refine ⟨fun i hi => satellite_positions_get R alt inc n off i hi,
    fun i => by unfold sat_angle; push_cast; ring,
    fun i hi p hp => ?_,
    fun i j off1 off2 => by unfold sat_angle; ring⟩
  rw [hp, satellite_positions_get R alt inc n off i hi]
  show Real.sqrt (((R + alt) * Real.cos (sat_angle n off i)) ^ 2 +
      ((R + alt) * Real.sin (sat_angle n off i) * Real.cos (np_deg2rad inc)) ^ 2 +
      ((R + alt) * Real.sin (sat_angle n off i) * Real.sin (np_deg2rad inc)
        + 500 - 500) ^ 2) = R + alt
  have ht : Real.sin (np_deg2rad inc) ^ 2 + Real.cos (np_deg2rad inc) ^ 2 = 1 :=
    Real.sin_sq_add_cos_sq (np_deg2rad inc)
  have ha : Real.sin (sat_angle n off i) ^ 2 +
      Real.cos (sat_angle n off i) ^ 2 = 1 :=
    Real.sin_sq_add_cos_sq (sat_angle n off i)
  have key : ((R + alt) * Real.cos (sat_angle n off i)) ^ 2 +
      ((R + alt) * Real.sin (sat_angle n off i) * Real.cos (np_deg2rad inc)) ^ 2 +
      ((R + alt) * Real.sin (sat_angle n off i) * Real.sin (np_deg2rad inc)
        + 500 - 500) ^ 2 = (R + alt) ^ 2 := by
    linear_combination ((R + alt) ^ 2 * Real.sin (sat_angle n off i) ^ 2) * ht +
      (R + alt) ^ 2 * ha
  rw [key, Real.sqrt_sq hr]

/-- Witness for C7 at moon_radius = 1, altitude = 1, inclination 0, one
satellite, phase offset 0: the satellite lies at distance 2 from the orbit
centre (0, 0, 500). -/
theorem satellite_positions_rigid_ring_witness :
    Real.sqrt ((((satellite_positions 1 1 0 1 0).get
        ⟨0, by rw [satellite_positions_length]; norm_num⟩).1) ^ 2 +
      (((satellite_positions 1 1 0 1 0).get
        ⟨0, by rw [satellite_positions_length]; norm_num⟩).2.1) ^ 2 +
      ((((satellite_positions 1 1 0 1 0).get
        ⟨0, by rw [satellite_positions_length]; norm_num⟩).2.2) - 500) ^ 2) =
      2 := by
  have h := (satellite_positions_rigid_ring 1 1 0 0 1 (le_refl 1)
    (by norm_num)).2.2.1 0 Nat.zero_lt_one _ rfl
  norm_num at h
  exact h
